import Mathlib

/-!
Verification of the minecraft-ondemand CDK topology builder.

Shallow embedding of `cdk/lib/minecraft-stack.ts` (the `MinecraftStack`
constructor) and `cdk/lib/config.ts` (`resolveMinecraftServerDefs`).
The repository modules `constants.ts`, `util.ts` and `types.ts` are not
part of the provided sources; the few values taken from them are modelled
from the specification and marked as such.  Behaviour of aws-cdk-lib calls
(security-group ingress deduplication, Fargate task-definition defaulting)
is embedded following the library's documented semantics, since the stack's
observable output flows through those calls.
-/

inductive Protocol where
  | tcp
  | udp
deriving DecidableEq, Repr

inductive Edition where
  | java
  | bedrock
deriving DecidableEq, Repr

/-- Modelled from the spec: shared resource-name constants from the missing
`constants.ts` module.  The cluster name `minecraft` is evidenced by the ARN
comment `task/minecraft/*` in `minecraft-stack.ts`; the remaining values are
the shared name prefixes the spec describes. -/
def CLUSTER_NAME : String := "minecraft"

/-- Modelled from the spec: the shared service-name prefix (`constants.SERVICE_NAME`). -/
def SERVICE_NAME : String := "minecraft-server"

/-- Modelled from the spec: the server-container name prefix. -/
def MC_SERVER_CONTAINER_NAME : String := "minecraft-server"

/-- Modelled from the spec: the watchdog-container name prefix. -/
def WATCHDOG_CONTAINER_NAME : String := "minecraft-ecsfargate-watchdog"

/-- Modelled from the spec: the shared volume name (`constants.ECS_VOLUME_NAME`). -/
def ECS_VOLUME_NAME : String := "data"

/-- Construct id of the single shared ECS task role (`new iam.Role(this, 'TaskRole', ...)`). -/
def ecsTaskRoleId : String := "TaskRole"

/-- Construct id of the EFS maintenance instance role. -/
def efsMaintenanceRoleId : String := "EFSMaintenanceRole"

structure TwilioConfig where
  phoneFrom : String
  phoneTo : String
  accountId : String
  authCode : String
deriving DecidableEq, Repr

/-- Per-tenant definition as it exists at runtime: the tenant map comes from
`JSON.parse` without validation, so `cpu` and `memory` may be absent
(`undefined` in the source), modelled as `Option`. -/
structure MinecraftServerDef where
  cpu : Option Nat
  memory : Option Nat
  containerEnv : List (String × String)
deriving DecidableEq, Repr

/-- `StackConfig` from `config.ts` / `types.ts`, with the tenant map as an
association list (preserving the key iteration order of `Object.keys`). -/
structure StackConfig where
  domainName : String
  serverRegion : String
  minecraftEdition : Edition
  shutdownMinutes : String
  startupMinutes : String
  useFargateSpot : Bool
  taskCpu : Nat
  taskMemory : Nat
  vpcId : String
  snsEmailAddress : String
  twilioCfg : TwilioConfig
  debug : Bool
  minecraftServerDefs : List (String × MinecraftServerDef)
deriving Repr

/-- Deploy-time facts external to the stack definition: values resolved by
`SSMParameterReader`, the stack's region/account (CDK tokens), whether the
build machine has docker (`isDockerInstalled`), and the ARN the platform
assigns to the SNS topic. -/
structure ExternalEnv where
  hostedZoneId : String
  region : String
  account : String
  dockerInstalled : Bool
  snsTopicArn : String
  launcherLambdaRoleArn : String → String

/-- Modelled from the spec: `getMinecraftServerConfig` from the missing
`util.ts` — a pure function of the edition tag yielding the container image,
network port and protocol (TCP for Java, UDP for Bedrock). -/
structure MinecraftServerConfig where
  image : String
  port : Nat
  protocol : Protocol
deriving DecidableEq, Repr

/-- Modelled from the spec: edition tag to image/port/protocol. -/
def getMinecraftServerConfig : Edition → MinecraftServerConfig
  | .java => { image := "itzg/minecraft-server", port := 25565, protocol := .tcp }
  | .bedrock => { image := "itzg/minecraft-bedrock-server", port := 19132, protocol := .udp }

structure IngressRule where
  peer : String
  fromPort : Nat
  toPort : Nat
  protocol : Protocol
  description : String
deriving DecidableEq, Repr

/-- Rule equality as aws-cdk-lib's `ingressRulesEqual` compares inline rules:
peer/ports/protocol, the description is ignored. -/
def ingressRulesEqual (a b : IngressRule) : Bool :=
  a.peer == b.peer && a.fromPort == b.fromPort && a.toPort == b.toPort &&
    a.protocol == b.protocol

/-- aws-cdk-lib `SecurityGroup.addIngressRule`: an inline rule equal to one
already present on the group is skipped, otherwise it is appended. -/
def addIngressRuleDedup (rules : List IngressRule) (r : IngressRule) : List IngressRule :=
  if rules.any (fun x => ingressRulesEqual x r) then rules else rules ++ [r]

/-- The ingress rule the tenant loop adds: `Peer.anyIpv4()` on the edition's
port/protocol, description `Minecraft-Server-Ingress-<port>`. -/
def editionIngressRule (e : Edition) : IngressRule :=
  let cfg := getMinecraftServerConfig e
  { peer := "0.0.0.0/0"
    fromPort := cfg.port
    toPort := cfg.port
    protocol := cfg.protocol
    description := "Minecraft-Server-Ingress-" ++ toString cfg.port }

structure PortMapping where
  containerPort : Nat
  hostPort : Nat
  protocol : Protocol
deriving DecidableEq, Repr

structure MountPoint where
  containerPath : String
  sourceVolume : String
  readOnly : Bool
deriving DecidableEq, Repr

structure ContainerDef where
  containerName : String
  image : String
  portMappings : List PortMapping
  environment : List (String × String)
  entryPoint : List String
  essential : Bool
  pseudoTerminal : Bool
  mountPoints : List MountPoint
  logging : Option String
deriving DecidableEq, Repr

structure EfsVolume where
  volumeName : String
  transitEncryption : String
  accessPointIam : String
deriving DecidableEq, Repr

structure TaskDef where
  taskDefId : String
  taskRole : String
  cpu : Nat
  memoryLimitMiB : Nat
  volumes : List EfsVolume
deriving DecidableEq, Repr

structure CapacityStrategy where
  capacityProvider : String
  weight : Nat
  base : Nat
deriving DecidableEq, Repr

structure FargateService where
  serviceId : String
  serviceName : String
  desiredCount : Nat
  assignPublicIp : Bool
  capacityProviderStrategies : List CapacityStrategy
  securityGroups : List String
  taskDefId : String
deriving DecidableEq, Repr

structure PolicyStatement where
  sid : String
  actions : List String
  resources : List String
deriving DecidableEq, Repr

structure Policy where
  policyId : String
  statements : List PolicyStatement
deriving DecidableEq, Repr

structure TenantSubgraph where
  key : String
  taskDefinition : TaskDef
  serverContainer : ContainerDef
  service : FargateService
  watchdogContainer : ContainerDef
  serviceControlPolicy : Policy
  iamRoute53Policy : Policy
deriving DecidableEq, Repr

structure Topology where
  clusterName : String
  accessPointPath : String
  fileSystemRemoval : String
  maintenanceMountRetries : Nat
  maintenanceMountWaitSeconds : Nat
  snsTopicCount : Nat
  emailSubscriptionCount : Nat
  snsTopicArn : String
  publishGrants : List String
  ingressRules : List IngressRule
  roleAttachments : List (String × String)
  tenants : List TenantSubgraph
deriving Repr

/-- ARN scoped to the stack's ECS namespace, as `Arn.format` resolves it:
`arn:aws:ecs:<region>:<account>:<tail>`. -/
def ecsArnScope (ext : ExternalEnv) (tail : String) : String :=
  ("arn:aws:ecs:" ++ ext.region ++ ":" ++ ext.account ++ ":") ++ tail

/-- The deploy-time value of `minecraftServerService.serviceArn` for a
service of the given name in the shared cluster. -/
def serviceArnOf (ext : ExternalEnv) (name : String) : String :=
  ecsArnScope ext ("service/" ++ CLUSTER_NAME ++ "/" ++ name)

/-- `Arn.format({service: 'ecs', resource: 'task', resourceName: 'minecraft/*'})`:
the cluster-wide task wildcard placed in every tenant's control policy. -/
def clusterTaskWildcard (ext : ExternalEnv) : String :=
  ecsArnScope ext ("task/" ++ CLUSTER_NAME ++ "/*")

/-- Resource line of the Route53 edit policy. -/
def hostedZoneArnOf (zoneId : String) : String :=
  "arn:aws:route53:::hostedzone/" ++ zoneId

def svcNameOf (key : String) : String :=
  SERVICE_NAME ++ "-" ++ key

/-- IAM resource-pattern matching for the patterns this stack emits: `*`
matches everything, a trailing `*` matches by prefix, otherwise exact match. -/
def arnCovers (pat arn : String) : Bool :=
  if pat == "*" then true
  else if pat.data.getLast? == some '*' then List.isPrefixOf pat.data.dropLast arn.data
  else pat == arn

/-- The watchdog sidecar's environment, in source order
(`minecraft-stack.ts`, `WatchDogContainer-<key>`). -/
def watchdogEnv (c : StackConfig) (ext : ExternalEnv) (topicArn key : String) :
    List (String × String) :=
  [("CLUSTER", CLUSTER_NAME),
   ("SERVICE", svcNameOf key),
   ("DNSZONE", ext.hostedZoneId),
   ("SERVERNAME", key ++ "." ++ c.domainName),
   ("SNSTOPIC", topicArn),
   ("TWILIOFROM", c.twilioCfg.phoneFrom),
   ("TWILIOTO", c.twilioCfg.phoneTo),
   ("TWILIOAID", c.twilioCfg.accountId),
   ("TWILIOAUTH", c.twilioCfg.authCode),
   ("STARTUPMIN", c.startupMinutes),
   ("SHUTDOWNMIN", c.shutdownMinutes)]

/-- One iteration body of the tenant loop: everything created for a single
key.  `cpu`/`memory` follow aws-cdk-lib `FargateTaskDefinition` semantics:
an `undefined` value silently defaults to 256 CPU units / 512 MiB. -/
def mkTenantSubgraph (c : StackConfig) (ext : ExternalEnv) (topicArn key : String)
    (d : MinecraftServerDef) : TenantSubgraph :=
  let cfg := getMinecraftServerConfig c.minecraftEdition
  { key := key
    taskDefinition :=
      { taskDefId := "TaskDefinition-" ++ key
        taskRole := ecsTaskRoleId
        cpu := d.cpu.getD 256
        memoryLimitMiB := d.memory.getD 512
        volumes := [{ volumeName := ECS_VOLUME_NAME
                      transitEncryption := "ENABLED"
                      accessPointIam := "ENABLED" }] }
    serverContainer :=
      { containerName := MC_SERVER_CONTAINER_NAME ++ "-" ++ key
        image := cfg.image
        portMappings := [{ containerPort := cfg.port, hostPort := cfg.port,
                           protocol := cfg.protocol }]
        environment := d.containerEnv
        entryPoint := ["/minecraft/minecraft.sh"]
        essential := true
        pseudoTerminal := true
        mountPoints := [{ containerPath := "/minecraft", sourceVolume := ECS_VOLUME_NAME,
                          readOnly := false }]
        logging := if c.debug then some MC_SERVER_CONTAINER_NAME else none }
    service :=
      { serviceId := "FargateService-" ++ key
        serviceName := svcNameOf key
        desiredCount := 0
        assignPublicIp := true
        capacityProviderStrategies :=
          [{ capacityProvider := if c.useFargateSpot then "FARGATE_SPOT" else "FARGATE"
             weight := 1
             base := 1 }]
        securityGroups := ["ServiceSecurityGroup"]
        taskDefId := "TaskDefinition-" ++ key }
    watchdogContainer :=
      { containerName := WATCHDOG_CONTAINER_NAME ++ "-" ++ key
        image := if ext.dockerInstalled then "asset:minecraft-ecsfargate-watchdog"
                 else "doctorray/minecraft-ecsfargate-watchdog"
        portMappings := []
        environment := watchdogEnv c ext topicArn key
        entryPoint := ["/minecraft/watchdog.sh"]
        essential := true
        pseudoTerminal := false
        mountPoints := [{ containerPath := "/minecraft", sourceVolume := ECS_VOLUME_NAME,
                          readOnly := false }]
        logging := if c.debug then some WATCHDOG_CONTAINER_NAME else none }
    serviceControlPolicy :=
      { policyId := "ServiceControlPolicy-" ++ key
        statements :=
          [{ sid := "AllowAllOnServiceAndTask" ++ key
             actions := ["ecs:*"]
             resources := [serviceArnOf ext (svcNameOf key), clusterTaskWildcard ext] },
           { sid := ""
             actions := ["ec2:DescribeNetworkInterfaces"]
             resources := ["*"] }] }
    iamRoute53Policy :=
      { policyId := "IamRoute53Policy-" ++ key
        statements :=
          [{ sid := "AllowEditRecordSets"
             actions := ["route53:GetHostedZone", "route53:ChangeResourceRecordSets",
                         "route53:ListResourceRecordSets"]
             resources := [hostedZoneArnOf ext.hostedZoneId] }] } }

structure BuildState where
  ingressRules : List IngressRule
  roleAttachments : List (String × String)
  tenants : List TenantSubgraph

/-- Per-key state update of the `forEach` over `Object.keys(config.minecraftServerDefs)`:
add (with the library's dedupe) the edition's ingress rule to the shared
security group, build the tenant subgraph, attach the control policy to the
shared task role and to the launcher role resolved for this key, and attach
the Route53 policy to the shared task role. -/
def processTenant (c : StackConfig) (ext : ExternalEnv) (topicArn : String)
    (st : BuildState) (kv : String × MinecraftServerDef) : BuildState :=
  let t := mkTenantSubgraph c ext topicArn kv.1 kv.2
  { ingressRules := addIngressRuleDedup st.ingressRules (editionIngressRule c.minecraftEdition)
    roleAttachments := st.roleAttachments ++
      [(t.serviceControlPolicy.policyId, ecsTaskRoleId),
       (t.serviceControlPolicy.policyId, ext.launcherLambdaRoleArn kv.1),
       (t.iamRoute53Policy.policyId, ecsTaskRoleId)]
    tenants := st.tenants ++ [t] }

/-- Policy attachments made before the tenant loop runs. -/
def sharedAttachments : List (String × String) :=
  [("DataRWPolicy", ecsTaskRoleId),
   ("SSMManagedInstanceCorePolicy", efsMaintenanceRoleId),
   ("DataRWPolicy", efsMaintenanceRoleId)]

/-- The truthiness test `if (config.snsEmailAddress)` from the source. -/
def emailSet (c : StackConfig) : Bool := !(c.snsEmailAddress == "")

/-- The internal topic-identifier value: the topic's ARN when the SNS topic
was created, the initial `''` otherwise. -/
def topicArnOf (c : StackConfig) (ext : ExternalEnv) : String :=
  if emailSet c then ext.snsTopicArn else ""

/-- State of the shared accumulators when the tenant loop starts. -/
def initBuildState : BuildState :=
  { ingressRules := [], roleAttachments := sharedAttachments, tenants := [] }

/-- The tenant loop: `Object.keys(config.minecraftServerDefs).forEach(...)`. -/
def tenantLoop (c : StackConfig) (ext : ExternalEnv) : BuildState :=
  c.minecraftServerDefs.foldl (processTenant c ext (topicArnOf c ext)) initBuildState

/-- The `MinecraftStack` constructor as a function from configuration and
resolved external facts to the resource topology.  The SNS topic and email
subscription are created before the loop iff `snsEmailAddress` is truthy
(non-empty); `snsTopicArn` stays `''` otherwise. -/
def buildTopology (c : StackConfig) (ext : ExternalEnv) : Topology :=
  { clusterName := CLUSTER_NAME
    accessPointPath := "/minecraft"
    fileSystemRemoval := "SNAPSHOT"
    maintenanceMountRetries := 15
    maintenanceMountWaitSeconds := 30
    snsTopicCount := if emailSet c then 1 else 0
    emailSubscriptionCount := if emailSet c then 1 else 0
    snsTopicArn := topicArnOf c ext
    publishGrants := if emailSet c then [ecsTaskRoleId] else []
    ingressRules := (tenantLoop c ext).ingressRules
    roleAttachments := (tenantLoop c ext).roleAttachments
    tenants := (tenantLoop c ext).tenants }

/-- `resolveMinecraftServerDefs` from `config.ts`.  `JSON.parse` (plus the
implicit cast to `MinecraftServerDefs`) is the host runtime's parser, modelled
as the `parse` argument; the `try/catch` is modelled as `Except`.  Returns the
resolved map together with the list of diagnostics written to `console.error`.
On success the result is `{...{}, ...parsed}`, i.e. the parsed map itself. -/
def resolveMinecraftServerDefs
    (parse : String → Except String (List (String × MinecraftServerDef)))
    (json : String := "") : List (String × MinecraftServerDef) × List String :=
  match parse json with
  | .ok defs => (defs, [])
  | .error _ =>
    ([], ["Error: Unable to resolve .env value for MINECRAFT_SERVER_DEFS_JSON."])

/-! ### Characterization of the tenant loop fold -/

lemma processTenant_ingress (c : StackConfig) (ext : ExternalEnv) (a : String)
    (st : BuildState) (kv : String × MinecraftServerDef) :
    (processTenant c ext a st kv).ingressRules =
      addIngressRuleDedup st.ingressRules (editionIngressRule c.minecraftEdition) := rfl

lemma processTenant_tenants (c : StackConfig) (ext : ExternalEnv) (a : String)
    (st : BuildState) (kv : String × MinecraftServerDef) :
    (processTenant c ext a st kv).tenants =
      st.tenants ++ [mkTenantSubgraph c ext a kv.1 kv.2] := rfl

/-- Attachments emitted for one key of the tenant loop. -/
def tenantAttachments (ext : ExternalEnv) (key : String) : List (String × String) :=
  [("ServiceControlPolicy-" ++ key, ecsTaskRoleId),
   ("ServiceControlPolicy-" ++ key, ext.launcherLambdaRoleArn key),
   ("IamRoute53Policy-" ++ key, ecsTaskRoleId)]

lemma processTenant_attach (c : StackConfig) (ext : ExternalEnv) (a : String)
    (st : BuildState) (kv : String × MinecraftServerDef) :
    (processTenant c ext a st kv).roleAttachments =
      st.roleAttachments ++ tenantAttachments ext kv.1 := rfl

lemma ingressRulesEqual_refl (r : IngressRule) : ingressRulesEqual r r = true := by
  simp [ingressRulesEqual]

lemma addIngressRuleDedup_idem (rules : List IngressRule) (r : IngressRule) :
    addIngressRuleDedup (addIngressRuleDedup rules r) r = addIngressRuleDedup rules r := by
  unfold addIngressRuleDedup
  by_cases h : rules.any (fun x => ingressRulesEqual x r) = true
  · simp [h]
  · simp [h, ingressRulesEqual_refl]

lemma foldl_ingress (c : StackConfig) (ext : ExternalEnv) (a : String) :
    ∀ (l : List (String × MinecraftServerDef)) (st : BuildState),
      (l.foldl (processTenant c ext a) st).ingressRules =
        if l.isEmpty then st.ingressRules
        else addIngressRuleDedup st.ingressRules (editionIngressRule c.minecraftEdition) := by
  intro l
  induction l with
  | nil => intro st; rfl
  | cons kv tl ih =>
    intro st
    rw [List.foldl_cons, ih]
    cases tl with
    | nil => simp [processTenant_ingress]
    | cons b bs => simp [processTenant_ingress, addIngressRuleDedup_idem]

lemma foldl_tenants (c : StackConfig) (ext : ExternalEnv) (a : String) :
    ∀ (l : List (String × MinecraftServerDef)) (st : BuildState),
      (l.foldl (processTenant c ext a) st).tenants =
        st.tenants ++ l.map (fun kv => mkTenantSubgraph c ext a kv.1 kv.2) := by
  intro l
  induction l with
  | nil => intro st; simp
  | cons kv tl ih =>
    intro st
    rw [List.foldl_cons, ih, processTenant_tenants]
    simp

lemma foldl_attach (c : StackConfig) (ext : ExternalEnv) (a : String) :
    ∀ (l : List (String × MinecraftServerDef)) (st : BuildState),
      (l.foldl (processTenant c ext a) st).roleAttachments =
        st.roleAttachments ++ l.flatMap (fun kv => tenantAttachments ext kv.1) := by
  intro l
  induction l with
  | nil => intro st; simp
  | cons kv tl ih =>
    intro st
    rw [List.foldl_cons, ih, processTenant_attach]
    simp

lemma buildTopology_tenants (c : StackConfig) (ext : ExternalEnv) :
    (buildTopology c ext).tenants =
      c.minecraftServerDefs.map
        (fun kv => mkTenantSubgraph c ext (topicArnOf c ext) kv.1 kv.2) := by
  show (tenantLoop c ext).tenants = _
  unfold tenantLoop
  rw [foldl_tenants]
  rfl

lemma buildTopology_ingress (c : StackConfig) (ext : ExternalEnv) :
    (buildTopology c ext).ingressRules =
      if c.minecraftServerDefs.isEmpty then []
      else [editionIngressRule c.minecraftEdition] := by
  show (tenantLoop c ext).ingressRules = _
  unfold tenantLoop
  rw [foldl_ingress]
  rfl

lemma buildTopology_attach (c : StackConfig) (ext : ExternalEnv) :
    (buildTopology c ext).roleAttachments =
      sharedAttachments ++
        c.minecraftServerDefs.flatMap (fun kv => tenantAttachments ext kv.1) := by
  show (tenantLoop c ext).roleAttachments = _
  unfold tenantLoop
  rw [foldl_attach]
  rfl

/-! ### String reasoning helpers -/

lemma str_append_cancel_left {p a b : String} (h : p ++ a = p ++ b) : a = b := by
  apply String.ext
  have hd := congrArg String.data h
  rw [String.data_append, String.data_append] at hd
  exact List.append_cancel_left hd

lemma svcNameOf_inj {k1 k2 : String} (h : svcNameOf k1 = svcNameOf k2) : k1 = k2 := by
  unfold svcNameOf SERVICE_NAME at h
  exact str_append_cancel_left h

lemma ecsArnScope_inj {ext : ExternalEnv} {t1 t2 : String}
    (h : ecsArnScope ext t1 = ecsArnScope ext t2) : t1 = t2 := by
  unfold ecsArnScope at h
  exact str_append_cancel_left h

lemma serviceArnOf_inj {ext : ExternalEnv} {n1 n2 : String}
    (h : serviceArnOf ext n1 = serviceArnOf ext n2) : n1 = n2 := by
  unfold serviceArnOf CLUSTER_NAME at h
  exact str_append_cancel_left (ecsArnScope_inj h)

lemma serviceArnOf_ne_taskWildcard (ext : ExternalEnv) (n : String) :
    serviceArnOf ext n ≠ clusterTaskWildcard ext := by
  intro h
  unfold serviceArnOf clusterTaskWildcard CLUSTER_NAME at h
  have h2 := ecsArnScope_inj h
  have e1 : (("service/" ++ "minecraft") ++ "/") = "service/minecraft/" := rfl
  have e2 : (("task/" ++ "minecraft") ++ "/*") = "task/minecraft/*" := rfl
  rw [e1, e2] at h2
  have hd := congrArg String.data h2
  rw [String.data_append] at hd
  have g1 : "service/minecraft/".data = 's' :: "ervice/minecraft/".data := rfl
  have g2 : "task/minecraft/*".data = 't' :: "ask/minecraft/*".data := rfl
  rw [g1, g2, List.cons_append] at hd
  injection hd with hc _
  exact absurd hc (by decide)

lemma clusterTaskWildcard_ne_star (ext : ExternalEnv) : clusterTaskWildcard ext ≠ "*" := by
  intro h
  have hd := congrArg String.data h
  unfold clusterTaskWildcard ecsArnScope CLUSTER_NAME at hd
  rw [String.data_append] at hd
  have hl := congrArg List.length hd
  rw [List.length_append] at hl
  have e1 : (("task/" ++ "minecraft") ++ "/*").data.length = 16 := rfl
  have e2 : "*".data.length = 1 := rfl
  rw [e1, e2] at hl
  omega

lemma clusterTaskWildcard_getLast (ext : ExternalEnv) :
    (clusterTaskWildcard ext).data.getLast? = some '*' := by
  unfold clusterTaskWildcard ecsArnScope CLUSTER_NAME
  have e : (("task/" ++ "minecraft") ++ "/*") = "task/minecraft/*" := rfl
  rw [e, String.data_append, List.getLast?_append_of_ne_nil]
  · rfl
  · decide

lemma clusterTaskWildcard_dropLast (ext : ExternalEnv) :
    (clusterTaskWildcard ext).data.dropLast =
      ("arn:aws:ecs:" ++ ext.region ++ ":" ++ ext.account ++ ":").data ++
        "task/minecraft/".data := by
  unfold clusterTaskWildcard ecsArnScope CLUSTER_NAME
  have e : (("task/" ++ "minecraft") ++ "/*") = "task/minecraft/*" := rfl
  rw [e, String.data_append, List.dropLast_append_of_ne_nil]
  · rfl
  · decide

lemma str_append_assoc (a b c : String) : (a ++ b) ++ c = a ++ (b ++ c) := by
  apply String.ext
  simp [String.data_append]

/-- The cluster-wide task wildcard in every tenant's control policy covers
every task ARN under the shared cluster, whichever tenant launched it. -/
lemma taskWildcard_covers (ext : ExternalEnv) (taskId : String) :
    arnCovers (clusterTaskWildcard ext)
      (ecsArnScope ext ("task/" ++ CLUSTER_NAME ++ "/" ++ taskId)) = true := by
  have hneg : ¬((clusterTaskWildcard ext == "*") = true) := by
    simp only [beq_iff_eq]
    exact clusterTaskWildcard_ne_star ext
  have hpos : ((clusterTaskWildcard ext).data.getLast? == some '*') = true := by
    rw [clusterTaskWildcard_getLast]
    rfl
  have h1 : (clusterTaskWildcard ext).data.dropLast =
      (("arn:aws:ecs:" ++ ext.region ++ ":" ++ ext.account ++ ":") ++
        "task/minecraft/").data := by
    rw [clusterTaskWildcard_dropLast]
    simp [String.data_append, List.append_assoc]
  have h2 : ecsArnScope ext ("task/" ++ CLUSTER_NAME ++ "/" ++ taskId) =
      (("arn:aws:ecs:" ++ ext.region ++ ":" ++ ext.account ++ ":") ++
        "task/minecraft/") ++ taskId := by
    unfold ecsArnScope CLUSTER_NAME
    have e : (("task/" ++ "minecraft") ++ "/") = "task/minecraft/" := rfl
    rw [e]
    apply String.ext
    simp [String.data_append, List.append_assoc]
  unfold arnCovers
  rw [if_neg hneg, if_pos hpos, h1, h2, String.data_append,
    List.isPrefixOf_iff_prefix]
  exact List.prefix_append _ _

lemma star_covers (arn : String) : arnCovers "*" arn = true := by
  unfold arnCovers
  rfl

/-! ### Concrete fixtures -/

def defAB : MinecraftServerDef :=
  { cpu := some 512, memory := some 1024, containerEnv := [("EULA", "TRUE")] }

def cfg0 : StackConfig :=
  { domainName := "example.com"
    serverRegion := "us-east-1"
    minecraftEdition := .bedrock
    shutdownMinutes := "20"
    startupMinutes := "10"
    useFargateSpot := false
    taskCpu := 1024
    taskMemory := 2048
    vpcId := ""
    snsEmailAddress := ""
    twilioCfg := { phoneFrom := "", phoneTo := "", accountId := "", authCode := "" }
    debug := false
    minecraftServerDefs := [] }

def cfgAB : StackConfig :=
  { cfg0 with minecraftServerDefs := [("a", defAB), ("b", defAB)] }

def cfgMissing : StackConfig :=
  { cfg0 with minecraftServerDefs :=
      [("a", { cpu := none, memory := none, containerEnv := [] })] }

def cfgEmail : StackConfig :=
  { cfg0 with snsEmailAddress := "ops@example.com"
              minecraftServerDefs := [("a", defAB), ("b", defAB)] }

def ext0 : ExternalEnv :=
  { hostedZoneId := "Z0001"
    region := "us-west-2"
    account := "123456789012"
    dockerInstalled := false
    snsTopicArn := "arn:aws:sns:us-west-2:123456789012:ServerSnsTopic"
    launcherLambdaRoleArn := fun k => "arn:aws:iam::123456789012:role/launcher-" ++ k }

def tenA : TenantSubgraph := mkTenantSubgraph cfgAB ext0 (topicArnOf cfgAB ext0) "a" defAB

def tenB : TenantSubgraph := mkTenantSubgraph cfgAB ext0 (topicArnOf cfgAB ext0) "b" defAB

lemma cfgAB_tenants : (buildTopology cfgAB ext0).tenants = [tenA, tenB] := by
  rw [buildTopology_tenants]
  rfl

/-- A parse function behaving like `JSON.parse` on malformed input. -/
def parseFail : String → Except String (List (String × MinecraftServerDef)) :=
  fun _ => .error "SyntaxError: Unexpected token"

/-! ### Claims -/

/-- Claim C1: for every tenant map with at least one key — in particular when
two or more keys share the (single, global) configured edition — the shared
service security group ends up with exactly one ingress rule on that
edition's port/protocol, and appending a further tenant of the
already-present edition adds no new ingress rule. -/
theorem C1_one_ingress_rule_per_edition (c : StackConfig) (ext : ExternalEnv)
    (h : c.minecraftServerDefs ≠ []) :
    (buildTopology c ext).ingressRules = [editionIngressRule c.minecraftEdition] ∧
    ∀ k d,
      (buildTopology
          { c with minecraftServerDefs := c.minecraftServerDefs ++ [(k, d)] }
          ext).ingressRules = (buildTopology c ext).ingressRules := by
  have hne : c.minecraftServerDefs.isEmpty = false := by
    cases hc : c.minecraftServerDefs with
    | nil => exact absurd hc h
    | cons a l => rfl
  constructor
  · simp [buildTopology_ingress, hne]
  · intro k d
    rw [buildTopology_ingress, buildTopology_ingress]
    simp [hne]

/-- Witness for C1: a concrete two-tenant bedrock map yields a single UDP
ingress rule. -/
theorem C1_one_ingress_rule_per_edition_witness :
    cfgAB.minecraftServerDefs ≠ [] ∧
    (buildTopology cfgAB ext0).ingressRules = [editionIngressRule Edition.bedrock] := by
  refine ⟨by decide, ?_⟩
  exact (C1_one_ingress_rule_per_edition cfgAB ext0 (by decide)).1

/-- Claim C2 counterexample: with a tenant definition lacking both `cpu` and
`memory`, the build does not fail and does not withhold the tenant's
resources — the subgraph for key `a` is produced, its task definition sized
by the platform defaults (256 CPU units, 512 MiB). -/
theorem C2_counterexample_no_failfast :
    (buildTopology cfgMissing ext0).tenants ≠ [] ∧
    (buildTopology cfgMissing ext0).tenants.map
        (fun t => (t.key, t.taskDefinition.cpu, t.taskDefinition.memoryLimitMiB)) =
      [("a", 256, 512)] := by
  constructor
  · decide
  · rfl

/-- Claim C2 amended: a tenant definition lacking the `cpu` or `memory`
field does not abort the build; the tenant's task definition is still
created, with the missing values silently defaulting to 256 CPU units and
512 MiB (aws-cdk-lib `FargateTaskDefinition` defaults). -/
theorem C2_amended_silent_defaults (c : StackConfig) (ext : ExternalEnv)
    (k : String) (d : MinecraftServerDef) (h : (k, d) ∈ c.minecraftServerDefs)
    (hcpu : d.cpu = none) (hmem : d.memory = none) :
    mkTenantSubgraph c ext (topicArnOf c ext) k d ∈ (buildTopology c ext).tenants ∧
    (mkTenantSubgraph c ext (topicArnOf c ext) k d).taskDefinition.cpu = 256 ∧
    (mkTenantSubgraph c ext (topicArnOf c ext) k d).taskDefinition.memoryLimitMiB = 512 := by
  refine ⟨?_, ?_, ?_⟩
  · rw [buildTopology_tenants]
    exact List.mem_map_of_mem _ h
  · simp [mkTenantSubgraph, hcpu]
  · simp [mkTenantSubgraph, hmem]

/-- Witness for the amended C2 at the concrete missing-fields tenant map. -/
theorem C2_amended_silent_defaults_witness :
    ("a", ({ cpu := none, memory := none, containerEnv := [] } : MinecraftServerDef)) ∈
        cfgMissing.minecraftServerDefs ∧
    mkTenantSubgraph cfgMissing ext0 (topicArnOf cfgMissing ext0) "a"
        { cpu := none, memory := none, containerEnv := [] } ∈
      (buildTopology cfgMissing ext0).tenants ∧
    (mkTenantSubgraph cfgMissing ext0 (topicArnOf cfgMissing ext0) "a"
        { cpu := none, memory := none, containerEnv := [] }).taskDefinition.cpu = 256 := by
  refine ⟨by decide, ?_, ?_⟩
  · exact (C2_amended_silent_defaults cfgMissing ext0 "a" _ (by decide) rfl rfl).1
  · exact (C2_amended_silent_defaults cfgMissing ext0 "a" _ (by decide) rfl rfl).2.1

lemma mem_tenants {c : StackConfig} {ext : ExternalEnv} {t : TenantSubgraph}
    (h : t ∈ (buildTopology c ext).tenants) :
    ∃ kv, kv ∈ c.minecraftServerDefs ∧
      mkTenantSubgraph c ext (topicArnOf c ext) kv.1 kv.2 = t := by
  rw [buildTopology_tenants] at h
  exact List.mem_map.mp h

/-- The tenant-isolation property exactly as claim C3 states it, over the
embedded topology: no resource scope of one tenant's control or DNS-edit
policy covers another tenant's service ARN, any task ARN under the shared
cluster, or the hosted zone holding the other tenant's DNS record. -/
def isolationClaimAt (ext : ExternalEnv) (T : Topology) : Prop :=
  ∀ t1, t1 ∈ T.tenants → ∀ t2, t2 ∈ T.tenants → t1.key ≠ t2.key →
    ∀ stmt, stmt ∈ t1.serviceControlPolicy.statements ++ t1.iamRoute53Policy.statements →
      ∀ r, r ∈ stmt.resources →
        arnCovers r (serviceArnOf ext (svcNameOf t2.key)) = false ∧
        (∀ taskId, arnCovers r
          (ecsArnScope ext ("task/" ++ CLUSTER_NAME ++ "/" ++ taskId)) = false) ∧
        arnCovers r (hostedZoneArnOf ext.hostedZoneId) = false

/-- The `ecs:*` statement of tenant `a`'s control policy in the concrete
two-tenant build. -/
def ecsStmtA : PolicyStatement :=
  { sid := "AllowAllOnServiceAndTaska"
    actions := ["ecs:*"]
    resources := [serviceArnOf ext0 (svcNameOf "a"), clusterTaskWildcard ext0] }

/-- Claim C3 counterexample: in the concrete two-tenant build, tenant `a`'s
control policy carries the cluster-wide task wildcard, which covers every
task ARN under the shared cluster — including tenant `b`'s tasks — so the
isolation property as claimed is false. -/
theorem C3_counterexample_cross_tenant_coverage :
    ¬ isolationClaimAt ext0 (buildTopology cfgAB ext0) := by
  intro h
  have hA : tenA ∈ (buildTopology cfgAB ext0).tenants := by
    rw [cfgAB_tenants]
    exact List.mem_cons_self _ _
  have hB : tenB ∈ (buildTopology cfgAB ext0).tenants := by
    rw [cfgAB_tenants]
    exact List.mem_cons_of_mem _ (List.mem_cons_self _ _)
  have hkey : tenA.key ≠ tenB.key := by decide
  have hstmt : ecsStmtA ∈
      tenA.serviceControlPolicy.statements ++ tenA.iamRoute53Policy.statements := by
    decide
  have hr : clusterTaskWildcard ext0 ∈ ecsStmtA.resources := by
    decide
  have hcov := (h tenA hA tenB hB hkey _ hstmt _ hr).2.1 "0df1a3"
  rw [taskWildcard_covers] at hcov
  exact absurd hcov (by decide)

lemma mkTenant_key (c : StackConfig) (ext : ExternalEnv) (a k : String)
    (d : MinecraftServerDef) : (mkTenantSubgraph c ext a k d).key = k := rfl

/-- Claim C3 amended: for distinct tenant keys, a tenant's control policy
names only its own service ARN among the service-level resources (never the
other tenant's), but the same policy also carries a cluster-wide task
wildcard covering every tenant's tasks and a `*` scope on the
network-interface statement, and the DNS-edit policy of every tenant is
identically scoped to the one shared hosted zone. -/
theorem C3_amended_policy_scoping (c : StackConfig) (ext : ExternalEnv)
    (t1 t2 : TenantSubgraph)
    (h1 : t1 ∈ (buildTopology c ext).tenants)
    (h2 : t2 ∈ (buildTopology c ext).tenants)
    (hne : t1.key ≠ t2.key) :
    t1.serviceControlPolicy.statements.map (fun s => s.resources) =
      [[serviceArnOf ext (svcNameOf t1.key), clusterTaskWildcard ext], ["*"]] ∧
    serviceArnOf ext (svcNameOf t2.key) ∉
      [serviceArnOf ext (svcNameOf t1.key), clusterTaskWildcard ext] ∧
    (∀ taskId, arnCovers (clusterTaskWildcard ext)
        (ecsArnScope ext ("task/" ++ CLUSTER_NAME ++ "/" ++ taskId)) = true) ∧
    t1.iamRoute53Policy.statements = t2.iamRoute53Policy.statements := by
  obtain ⟨kv1, hkv1, rfl⟩ := mem_tenants h1
  obtain ⟨kv2, hkv2, rfl⟩ := mem_tenants h2
  rw [mkTenant_key, mkTenant_key] at hne
  refine ⟨rfl, ?_, taskWildcard_covers ext, rfl⟩
  intro hmem
  rw [mkTenant_key, mkTenant_key] at hmem
  rcases List.mem_cons.mp hmem with heq | hmem2
  · exact hne ((svcNameOf_inj (serviceArnOf_inj heq)).symm ▸ rfl)
  · rcases List.mem_cons.mp hmem2 with heq2 | hnil
    · exact serviceArnOf_ne_taskWildcard ext (svcNameOf kv2.1) heq2
    · exact absurd hnil (List.not_mem_nil _)

/-- Witness for the amended C3 at the concrete two-tenant build. -/
theorem C3_amended_policy_scoping_witness :
    tenA.key ≠ tenB.key ∧
    serviceArnOf ext0 (svcNameOf tenB.key) ∉
      [serviceArnOf ext0 (svcNameOf tenA.key), clusterTaskWildcard ext0] ∧
    tenA.iamRoute53Policy.statements = tenB.iamRoute53Policy.statements := by
  have hA : tenA ∈ (buildTopology cfgAB ext0).tenants := by
    rw [cfgAB_tenants]
    exact List.mem_cons_self _ _
  have hB : tenB ∈ (buildTopology cfgAB ext0).tenants := by
    rw [cfgAB_tenants]
    exact List.mem_cons_of_mem _ (List.mem_cons_self _ _)
  have h := C3_amended_policy_scoping cfgAB ext0 tenA tenB hA hB (by decide)
  exact ⟨by decide, h.2.1, h.2.2.2⟩

/-- Claim C4: every tenant's task definition references the single shared
task role created before the loop, and every tenant's control and DNS-edit
policies are attached to that same role — so each tenant's running task
carries the union of all tenants' control and DNS permissions. -/
theorem C4_shared_role_union (c : StackConfig) (ext : ExternalEnv)
    (t1 t2 : TenantSubgraph)
    (h1 : t1 ∈ (buildTopology c ext).tenants)
    (h2 : t2 ∈ (buildTopology c ext).tenants) :
    t1.taskDefinition.taskRole = ecsTaskRoleId ∧
    (t2.serviceControlPolicy.policyId, t1.taskDefinition.taskRole) ∈
      (buildTopology c ext).roleAttachments ∧
    (t2.iamRoute53Policy.policyId, t1.taskDefinition.taskRole) ∈
      (buildTopology c ext).roleAttachments := by
  obtain ⟨kv1, hkv1, rfl⟩ := mem_tenants h1
  obtain ⟨kv2, hkv2, rfl⟩ := mem_tenants h2
  refine ⟨rfl, ?_, ?_⟩
  · rw [buildTopology_attach]
    apply List.mem_append_right
    exact List.mem_flatMap.mpr ⟨kv2, hkv2, by simp [tenantAttachments, mkTenantSubgraph]⟩
  · rw [buildTopology_attach]
    apply List.mem_append_right
    exact List.mem_flatMap.mpr ⟨kv2, hkv2, by simp [tenantAttachments, mkTenantSubgraph]⟩

/-- Witness for C4 at the concrete two-tenant build. -/
theorem C4_shared_role_union_witness :
    tenA.taskDefinition.taskRole = ecsTaskRoleId ∧
    (tenB.serviceControlPolicy.policyId, tenA.taskDefinition.taskRole) ∈
      (buildTopology cfgAB ext0).roleAttachments := by
  have hA : tenA ∈ (buildTopology cfgAB ext0).tenants := by
    rw [cfgAB_tenants]
    exact List.mem_cons_self _ _
  have hB : tenB ∈ (buildTopology cfgAB ext0).tenants := by
    rw [cfgAB_tenants]
    exact List.mem_cons_of_mem _ (List.mem_cons_self _ _)
  have h := C4_shared_role_union cfgAB ext0 tenA tenB hA hB
  exact ⟨h.1, h.2.1⟩

/-- Claim C5: for every input on which the JSON parser fails, resolving the
tenant-server-definitions configuration does not throw — it returns the
empty tenant map together with the diagnostic written to the console, and
the tenant loop over that result produces zero per-tenant subgraphs and
zero ingress rules. -/
theorem C5_malformed_json_recovers
    (parse : String → Except String (List (String × MinecraftServerDef)))
    (json e : String) (hp : parse json = .error e)
    (c : StackConfig) (ext : ExternalEnv) :
    resolveMinecraftServerDefs parse json =
      ([], ["Error: Unable to resolve .env value for MINECRAFT_SERVER_DEFS_JSON."]) ∧
    (buildTopology
        { c with minecraftServerDefs := (resolveMinecraftServerDefs parse json).1 }
        ext).tenants = [] ∧
    (buildTopology
        { c with minecraftServerDefs := (resolveMinecraftServerDefs parse json).1 }
        ext).ingressRules = [] := by
  have hr : resolveMinecraftServerDefs parse json =
      ([], ["Error: Unable to resolve .env value for MINECRAFT_SERVER_DEFS_JSON."]) := by
    unfold resolveMinecraftServerDefs
    rw [hp]
  refine ⟨hr, ?_, ?_⟩
  · rw [buildTopology_tenants]
    simp [hr]
  · rw [buildTopology_ingress]
    simp [hr]

/-- Witness for C5 on a concrete malformed input. -/
theorem C5_malformed_json_recovers_witness :
    parseFail "\x7bnot json" = Except.error "SyntaxError: Unexpected token" ∧
    resolveMinecraftServerDefs parseFail "\x7bnot json" =
      ([], ["Error: Unable to resolve .env value for MINECRAFT_SERVER_DEFS_JSON."]) ∧
    (buildTopology
        { cfg0 with minecraftServerDefs :=
            (resolveMinecraftServerDefs parseFail "\x7bnot json").1 }
        ext0).tenants = [] := by
  refine ⟨rfl, ?_, ?_⟩
  · exact (C5_malformed_json_recovers parseFail "\x7bnot json"
      "SyntaxError: Unexpected token" rfl cfg0 ext0).1
  · exact (C5_malformed_json_recovers parseFail "\x7bnot json"
      "SyntaxError: Unexpected token" rfl cfg0 ext0).2.1

/-- Claim C6: iff an operator email is configured, exactly one notification
topic and one email subscription are created (independently of the tenant
count) and publish rights go to the shared task role; otherwise the topic
identifier is the empty string; in both cases every tenant's watchdog
environment carries the same topic identifier under `SNSTOPIC`. -/
theorem C6_notification_fanout (c : StackConfig) (ext : ExternalEnv) :
    (c.snsEmailAddress ≠ "" →
      (buildTopology c ext).snsTopicCount = 1 ∧
      (buildTopology c ext).emailSubscriptionCount = 1 ∧
      (buildTopology c ext).publishGrants = [ecsTaskRoleId] ∧
      (buildTopology c ext).snsTopicArn = ext.snsTopicArn) ∧
    (c.snsEmailAddress = "" →
      (buildTopology c ext).snsTopicCount = 0 ∧
      (buildTopology c ext).emailSubscriptionCount = 0 ∧
      (buildTopology c ext).publishGrants = [] ∧
      (buildTopology c ext).snsTopicArn = "") ∧
    (∀ t, t ∈ (buildTopology c ext).tenants →
      t.watchdogContainer.environment.lookup "SNSTOPIC" =
        some (buildTopology c ext).snsTopicArn) := by
  refine ⟨?_, ?_, ?_⟩
  · intro hne
    have hb : emailSet c = true := by
      simp [emailSet, hne]
    exact ⟨by simp [buildTopology, hb], by simp [buildTopology, hb],
      by simp [buildTopology, hb], by simp [buildTopology, topicArnOf, hb]⟩
  · intro heq
    have hb : emailSet c = false := by
      simp [emailSet, heq]
    exact ⟨by simp [buildTopology, hb], by simp [buildTopology, hb],
      by simp [buildTopology, hb], by simp [buildTopology, topicArnOf, hb]⟩
  · intro t ht
    obtain ⟨kv, hkv, rfl⟩ := mem_tenants ht
    rfl

/-- Witness for C6 with and without a configured email. -/
theorem C6_notification_fanout_witness :
    cfgEmail.snsEmailAddress ≠ "" ∧
    (buildTopology cfgEmail ext0).snsTopicCount = 1 ∧
    (buildTopology cfgEmail ext0).emailSubscriptionCount = 1 ∧
    cfg0.snsEmailAddress = "" ∧
    (buildTopology cfg0 ext0).snsTopicArn = "" := by
  refine ⟨by decide, ?_, ?_, rfl, ?_⟩
  · exact ((C6_notification_fanout cfgEmail ext0).1 (by decide)).1
  · exact ((C6_notification_fanout cfgEmail ext0).1 (by decide)).2.1
  · exact ((C6_notification_fanout cfg0 ext0).2.1 rfl).2.2.2

/-- Claim C7: every tenant's watchdog sidecar is essential, shares the
server container's storage mount, and receives exactly the environment
contract as plain strings: cluster name, this tenant's service name
(shared prefix suffixed with the key), the resolved DNS zone id, the
`<key>.<domain>` hostname, the (possibly empty) notification topic id, the
(possibly empty) SMS provider credentials, and the startup/shutdown
timeout minutes. -/
theorem C7_watchdog_contract (c : StackConfig) (ext : ExternalEnv)
    (t : TenantSubgraph) (h : t ∈ (buildTopology c ext).tenants) :
    t.watchdogContainer.essential = true ∧
    t.watchdogContainer.mountPoints = t.serverContainer.mountPoints ∧
    t.watchdogContainer.mountPoints =
      [{ containerPath := "/minecraft", sourceVolume := ECS_VOLUME_NAME,
         readOnly := false }] ∧
    t.watchdogContainer.environment =
      [("CLUSTER", CLUSTER_NAME),
       ("SERVICE", SERVICE_NAME ++ "-" ++ t.key),
       ("DNSZONE", ext.hostedZoneId),
       ("SERVERNAME", t.key ++ "." ++ c.domainName),
       ("SNSTOPIC", (buildTopology c ext).snsTopicArn),
       ("TWILIOFROM", c.twilioCfg.phoneFrom),
       ("TWILIOTO", c.twilioCfg.phoneTo),
       ("TWILIOAID", c.twilioCfg.accountId),
       ("TWILIOAUTH", c.twilioCfg.authCode),
       ("STARTUPMIN", c.startupMinutes),
       ("SHUTDOWNMIN", c.shutdownMinutes)] := by
  obtain ⟨kv, hkv, rfl⟩ := mem_tenants h
  exact ⟨rfl, rfl, rfl, rfl⟩

/-- Witness for C7 at the concrete tenant `a`. -/
theorem C7_watchdog_contract_witness :
    tenA.watchdogContainer.essential = true ∧
    tenA.watchdogContainer.environment =
      [("CLUSTER", CLUSTER_NAME),
       ("SERVICE", SERVICE_NAME ++ "-" ++ tenA.key),
       ("DNSZONE", ext0.hostedZoneId),
       ("SERVERNAME", tenA.key ++ "." ++ cfgAB.domainName),
       ("SNSTOPIC", (buildTopology cfgAB ext0).snsTopicArn),
       ("TWILIOFROM", cfgAB.twilioCfg.phoneFrom),
       ("TWILIOTO", cfgAB.twilioCfg.phoneTo),
       ("TWILIOAID", cfgAB.twilioCfg.accountId),
       ("TWILIOAUTH", cfgAB.twilioCfg.authCode),
       ("STARTUPMIN", cfgAB.startupMinutes),
       ("SHUTDOWNMIN", cfgAB.shutdownMinutes)] := by
  have hA : tenA ∈ (buildTopology cfgAB ext0).tenants := by
    rw [cfgAB_tenants]
    exact List.mem_cons_self _ _
  have h := C7_watchdog_contract cfgAB ext0 tenA hA
  exact ⟨h.1, h.2.2.2⟩

/-- Claim C8: every tenant's compute service is created cold (desired count
zero), with a single capacity-provider strategy that is spot iff the
spot-usage flag is set (weight 1, base 1), public address assignment
enabled, and bound to the shared security group. -/
theorem C8_service_shape (c : StackConfig) (ext : ExternalEnv)
    (t : TenantSubgraph) (h : t ∈ (buildTopology c ext).tenants) :
    t.service.desiredCount = 0 ∧
    t.service.capacityProviderStrategies =
      [{ capacityProvider := if c.useFargateSpot then "FARGATE_SPOT" else "FARGATE"
         weight := 1
         base := 1 }] ∧
    t.service.assignPublicIp = true ∧
    t.service.securityGroups = ["ServiceSecurityGroup"] := by
  obtain ⟨kv, hkv, rfl⟩ := mem_tenants h
  exact ⟨rfl, rfl, rfl, rfl⟩

/-- Witness for C8 at the concrete tenant `a` (spot flag off). -/
theorem C8_service_shape_witness :
    tenA.service.desiredCount = 0 ∧
    tenA.service.capacityProviderStrategies =
      [{ capacityProvider := "FARGATE", weight := 1, base := 1 }] ∧
    tenA.service.assignPublicIp = true := by
  have hA : tenA ∈ (buildTopology cfgAB ext0).tenants := by
    rw [cfgAB_tenants]
    exact List.mem_cons_self _ _
  have h := C8_service_shape cfgAB ext0 tenA hA
  exact ⟨h.1, h.2.1, h.2.2.1⟩

/-- Claim C9: the empty tenant map builds successfully and yields only the
shared nodes — zero per-tenant subgraphs, zero ingress rules on the shared
service security group, and only the pre-loop policy attachments. -/
theorem C9_empty_map_shared_only (c : StackConfig) (ext : ExternalEnv)
    (h : c.minecraftServerDefs = []) :
    (buildTopology c ext).tenants = [] ∧
    (buildTopology c ext).ingressRules = [] ∧
    (buildTopology c ext).roleAttachments = sharedAttachments ∧
    (buildTopology c ext).clusterName = CLUSTER_NAME ∧
    (buildTopology c ext).accessPointPath = "/minecraft" ∧
    (buildTopology c ext).fileSystemRemoval = "SNAPSHOT" ∧
    (buildTopology c ext).maintenanceMountRetries = 15 ∧
    (buildTopology c ext).maintenanceMountWaitSeconds = 30 := by
  refine ⟨?_, ?_, ?_, rfl, rfl, rfl, rfl, rfl⟩
  · rw [buildTopology_tenants, h]
    rfl
  · rw [buildTopology_ingress, h]
    rfl
  · rw [buildTopology_attach, h]
    rfl

/-- Witness for C9 at the concrete empty-map configuration. -/
theorem C9_empty_map_shared_only_witness :
    cfg0.minecraftServerDefs = [] ∧
    (buildTopology cfg0 ext0).tenants = [] ∧
    (buildTopology cfg0 ext0).ingressRules = [] := by
  refine ⟨rfl, ?_, ?_⟩
  · exact (C9_empty_map_shared_only cfg0 ext0 rfl).1
  · exact (C9_empty_map_shared_only cfg0 ext0 rfl).2.1

/-- Claim C10: every per-tenant resource name and policy scope is a fixed
function of the tenant key, the configuration and the resolved externals —
and the whole tenant list is the image of the configuration's tenant map
under one pure function — so rebuilding from the same configuration
reproduces identical names and scopes. -/
theorem C10_deterministic_naming (c : StackConfig) (ext : ExternalEnv)
    (t : TenantSubgraph) (h : t ∈ (buildTopology c ext).tenants) :
    t.service.serviceName = SERVICE_NAME ++ "-" ++ t.key ∧
    t.serverContainer.containerName = MC_SERVER_CONTAINER_NAME ++ "-" ++ t.key ∧
    t.watchdogContainer.containerName = WATCHDOG_CONTAINER_NAME ++ "-" ++ t.key ∧
    t.taskDefinition.taskDefId = "TaskDefinition-" ++ t.key ∧
    t.serviceControlPolicy.policyId = "ServiceControlPolicy-" ++ t.key ∧
    t.iamRoute53Policy.policyId = "IamRoute53Policy-" ++ t.key ∧
    t.serviceControlPolicy.statements.map (fun s => s.resources) =
      [[serviceArnOf ext (SERVICE_NAME ++ "-" ++ t.key), clusterTaskWildcard ext],
       ["*"]] ∧
    t.iamRoute53Policy.statements.map (fun s => s.resources) =
      [[hostedZoneArnOf ext.hostedZoneId]] ∧
    (buildTopology c ext).tenants =
      c.minecraftServerDefs.map
        (fun kv => mkTenantSubgraph c ext (topicArnOf c ext) kv.1 kv.2) := by
  obtain ⟨kv, hkv, rfl⟩ := mem_tenants h
  exact ⟨rfl, rfl, rfl, rfl, rfl, rfl, rfl, rfl, buildTopology_tenants c ext⟩

/-- Witness for C10 at the concrete tenant `a`. -/
theorem C10_deterministic_naming_witness :
    tenA.service.serviceName = SERVICE_NAME ++ "-" ++ tenA.key ∧
    tenA.taskDefinition.taskDefId = "TaskDefinition-" ++ tenA.key ∧
    tenA.serviceControlPolicy.statements.map (fun s => s.resources) =
      [[serviceArnOf ext0 (SERVICE_NAME ++ "-" ++ tenA.key), clusterTaskWildcard ext0],
       ["*"]] := by
  have hA : tenA ∈ (buildTopology cfgAB ext0).tenants := by
    rw [cfgAB_tenants]
    exact List.mem_cons_self _ _
  have h := C10_deterministic_naming cfgAB ext0 tenA hA
  exact ⟨h.1, h.2.2.2.1, h.2.2.2.2.2.2.1⟩
